import Mathlib

/-!
Verification of the realtime middle-tier relay (`app/backend/rtmt.py`).

The embedding models JSON values as an inductive `Json`, Python dict
mutation as functional field update on association lists, Python
exceptions as `Except String`, and the two message transformers
`RTMiddleTier._process_message_to_client` and
`RTMiddleTier._process_message_to_server` as pure functions from the
parsed message (plus the raw frame text and the relay state) to an
outcome recording the messages sent on each socket, the new pending-call
table, and the returned (forwarded) message, `none` meaning suppressed.

Forwarding is modelled abstractly: `OutMsg.raw s` is the unmodified raw
frame `s` being returned, `OutMsg.reser j` is `json.dumps` of the
mutated tree `j`; this distinguishes byte-for-byte forwarding from
re-serialization without modelling the serializer itself.
-/

/-- JSON values, as produced by `json.loads`. Python `None` is `null`;
numbers are modelled as rationals. -/
inductive Json where
  | null
  | bool (b : Bool)
  | num (q : Rat)
  | str (s : String)
  | arr (xs : List Json)
  | obj (fields : List (String × Json))

mutual

/-- Structural equality of JSON trees, used for Python `==` on dict keys. -/
def Json.beq : Json → Json → Bool
  | .null, .null => true
  | .bool a, .bool b => a == b
  | .num a, .num b => a == b
  | .str a, .str b => a == b
  | .arr a, .arr b => Json.beqArr a b
  | .obj a, .obj b => Json.beqObj a b
  | _, _ => false

/-- Elementwise `Json.beq` on arrays. -/
def Json.beqArr : List Json → List Json → Bool
  | [], [] => true
  | x :: xs, y :: ys => Json.beq x y && Json.beqArr xs ys
  | _, _ => false

/-- Elementwise `Json.beq` on object field lists. -/
def Json.beqObj : List (String × Json) → List (String × Json) → Bool
  | [], [] => true
  | (k, v) :: xs, (l, w) :: ys => k == l && Json.beq v w && Json.beqObj xs ys
  | _, _ => false

end

/-- First value bound to key `k`, modelling Python dict lookup. -/
def lookupField : List (String × Json) → String → Option Json
  | [], _ => none
  | (l, v) :: rest, k => if l = k then some v else lookupField rest k

/-- Read access `m[k]`: `KeyError` on a missing key, `TypeError` when the
value subscripted is not a dict. -/
def Json.getField : Json → String → Except String Json
  | .obj fs, k =>
    match lookupField fs k with
    | some v => Except.ok v
    | none => Except.error "KeyError"
  | _, _ => Except.error "TypeError"

/-- Replace the binding of `k` in place (keeping its position), else append,
modelling Python dict assignment. -/
def setAssoc : List (String × Json) → String → Json → List (String × Json)
  | [], k, v => [(k, v)]
  | (l, w) :: rest, k, v =>
    if l = k then (k, v) :: rest else (l, w) :: setAssoc rest k v

/-- Assignment `m[k] = v`: `TypeError` when `m` is not a dict. -/
def Json.setField : Json → String → Json → Except String Json
  | .obj fs, k, v => Except.ok (.obj (setAssoc fs k v))
  | _, _, _ => Except.error "TypeError"

/-- Python `k in m` for a dict `m`. -/
def Json.hasField : Json → String → Bool
  | .obj fs, k => (lookupField fs k).isSome
  | _, _ => false

/-- Require a JSON array, as `reversed(...)` and `.pop(...)` do. -/
def Json.asArr : Json → Except String (List Json)
  | .arr xs => Except.ok xs
  | _ => Except.error "TypeError"

/-- Require a JSON string, as `json.loads` does of its argument. -/
def Json.asStr : Json → Except String String
  | .str s => Except.ok s
  | _ => Except.error "TypeError"

/-- The enum `ToolResultDirection` from `rtmt.py`: where a tool result is routed. -/
inductive ToolResultDirection where
  | TO_SERVER
  | TO_CLIENT
  deriving DecidableEq

/-- The class `ToolResult` from `rtmt.py`: the payload text (declared `str`, possibly
`None`) together with its destination. -/
structure ToolResult where
  text : Option String
  destination : ToolResultDirection

/-- The method `ToolResult.to_text`: the empty string when the text is `None`, else the
text itself. -/
def ToolResult.toText (r : ToolResult) : String :=
  match r.text with
  | none => ""
  | some s => s

/-- The class `Tool` from `rtmt.py`: the invocation schema and the handler. The handler
returns `Except` so that a raising Python coroutine is representable. -/
structure Tool where
  target : Json → Except String ToolResult
  schema : Json

/-- The class `RTToolCall` from `rtmt.py`: one pending function call. -/
structure RTToolCall where
  tool_call_id : Json
  previous_id : Json

/-- The relay configuration: the server-enforced fields and the tool registry
of `RTMiddleTier` (`tools` is a dict, modelled as an association list in
registration order). -/
structure RTMiddleTier where
  endpoint : String
  deployment : String
  key : Option String
  model : Option String
  system_message : Option String
  temperature : Option Rat
  max_tokens : Option Int
  disable_audio : Option Bool
  voice_choice : Option String
  api_version : String
  tools : List (String × Tool)

/-- A message returned by a transformer for forwarding: either the raw frame
text unchanged, or a re-serialized (`json.dumps`) mutated tree. -/
inductive OutMsg where
  | raw (s : String)
  | reser (j : Json)

/-- Result of one `_process_message_to_client` call: the new pending-call
table, the messages sent on the upstream socket and on the client socket (in
order), and the returned value: `Except.ok none` means suppressed,
`Except.ok (some m)` means forwarded, `Except.error e` means a Python
exception propagated out of the call. Sends recorded in the first three
fields happened even on the error path. -/
structure ProcOutcome where
  pending : List (Json × RTToolCall)
  sentToServer : List Json
  sentToClient : List Json
  result : Except String (Option OutMsg)

/-- Lookup in the pending-call dict, keyed by the JSON value of `call_id`. -/
def pendingLookup : List (Json × RTToolCall) → Json → Option RTToolCall
  | [], _ => none
  | (k, v) :: rest, cid => if Json.beq k cid then some v else pendingLookup rest cid

/-- Read access `self._tools_pending[cid]`: `KeyError` when absent. -/
def pendingGet (pending : List (Json × RTToolCall)) (cid : Json) :
    Except String RTToolCall :=
  match pendingLookup pending cid with
  | some tc => Except.ok tc
  | none => Except.error "KeyError"

/-- Lookup `self.tools[name]` where `name` is the JSON value of `item["name"]`:
the registry is keyed by strings, so any non-string lookup fails. -/
def toolsGet (tools : List (String × Tool)) : Json → Except String Tool
  | .str s =>
    match tools.lookup s with
    | some t => Except.ok t
    | none => Except.error "KeyError"
  | _ => Except.error "KeyError"

/-- Evaluation of `message["item"]["type"]` as done inside the client-bound handler. -/
def itemTypeOf (message : Json) : Except String Json := do
  let item ← message.getField "item"
  item.getField "type"

/-- Python `list.pop(i)` on a nonnegative index: removes the element at position `i`,
raising `IndexError` when `i` is out of range. -/
def popIdx (l : List Json) (i : Nat) : Except String (List Json) :=
  if i < l.length then Except.ok (l.take i ++ l.drop (i + 1))
  else Except.error "IndexError"

/-- One step chain of the loop
`for i, output in enumerate(reversed(out)): if output["type"] == "function_call": out.pop(i)`
from the `response.done` branch. `itIdx` is the index held by the CPython
reversed-list iterator (it counts down and the loop stops when it falls
outside the current, possibly shrunken, list), `enumI` the `enumerate`
counter used — incorrectly against the mutated list — as the `pop` index. -/
def pruneGo (itIdx : Nat) (enumI : Nat) (out : List Json) (replace : Bool) :
    Except String (List Json × Bool) :=
  if h : itIdx < out.length then
    match (out.get ⟨itIdx, h⟩).getField "type" with
    | .error e => Except.error e
    | .ok ty =>
      let step : Except String (List Json × Bool) :=
        if Json.beq ty (.str "function_call")
        then (popIdx out enumI).map (fun l => (l, true))
        else Except.ok (out, replace)
      match step with
      | .error e => Except.error e
      | .ok (out2, rep2) =>
        match itIdx with
        | 0 => Except.ok (out2, rep2)
        | n + 1 => pruneGo n (enumI + 1) out2 rep2
  else Except.ok (out, replace)

/-- The whole pruning loop over `message["response"]["output"]`, returning the
final list and the `replace` flag, or the exception it raises. -/
def pruneOutputs (outs : List Json) : Except String (List Json × Bool) :=
  pruneGo (outs.length - 1) 0 outs false

/-- The `session.created` redaction: blank instructions, empty tools, the
configured voice, tool choice "none", null max tokens, then re-serialize. -/
def sessionCreatedUpdate (cfg : RTMiddleTier) (message : Json) :
    Except String Json := do
  let session ← message.getField "session"
  let s1 ← session.setField "instructions" (.str "")
  let s2 ← s1.setField "tools" (.arr [])
  let s3 ← s2.setField "voice"
    (match cfg.voice_choice with | some v => .str v | none => .null)
  let s4 ← s3.setField "tool_choice" (.str "none")
  let s5 ← s4.setField "max_response_output_tokens" .null
  message.setField "session" s5

/-- The function-call dispatch from the `response.output_item.done` branch:
look up the pending call and the tool, parse the argument string with
`jl` (standing for `json.loads`), run the handler, and produce the messages
sent upstream and to the client. Every fallible step precedes both sends. -/
def dispatchFunctionCall (cfg : RTMiddleTier) (jl : String → Except String Json)
    (pending : List (Json × RTToolCall)) (item : Json) :
    Except String (List Json × List Json) := do
  let cid ← item.getField "call_id"
  let toolCall ← pendingGet pending cid
  let nameJ ← item.getField "name"
  let tool ← toolsGet cfg.tools nameJ
  let argsJ ← item.getField "arguments"
  let argStr ← argsJ.asStr
  let parsedArgs ← jl argStr
  let result ← tool.target parsedArgs
  let serverMsg := Json.obj [
    ("type", .str "conversation.item.create"),
    ("item", Json.obj [
      ("type", .str "function_call_output"),
      ("call_id", cid),
      ("output", .str
        (if result.destination = ToolResultDirection.TO_SERVER
         then result.toText else ""))])]
  let clientMsgs : List Json :=
    if result.destination = ToolResultDirection.TO_CLIENT then
      [Json.obj [
        ("type", .str "extension.middle_tier_tool_response"),
        ("previous_item_id", toolCall.previous_id),
        ("tool_name", nameJ),
        ("tool_result", .str result.toText)]]
    else []
  pure ([serverMsg], clientMsgs)

/-- The `conversation.item.created`/`function_call` tracker update: insert a
new `RTToolCall` keyed by `call_id` only when that key is absent. -/
def itemCreatedInsert (pending : List (Json × RTToolCall)) (message : Json) :
    Except String (List (Json × RTToolCall)) := do
  let item ← message.getField "item"
  let cid ← item.getField "call_id"
  match pendingLookup pending cid with
  | some _ => pure pending
  | none => do
    let cid2 ← item.getField "call_id"
    let prev ← message.getField "previous_item_id"
    pure (pending ++ [(cid, RTToolCall.mk cid2 prev)])

/-- The forwarding decision of the `response.done` branch: prune
function-call entries from `message["response"]["output"]` with the buggy
reversed-enumerate loop, re-serializing only when the flag was set. -/
def responseDoneForward (raw : String) (message : Json) :
    Except String (Option OutMsg) :=
  if message.hasField "response" then do
    let resp ← message.getField "response"
    let outJ ← resp.getField "output"
    let outs ← outJ.asArr
    let pr ← pruneOutputs outs
    if pr.2 then do
      let resp2 ← resp.setField "output" (.arr pr.1)
      let m2 ← message.setField "response" resp2
      pure (some (.reser m2))
    else pure (some (.raw raw))
  else pure (some (.raw raw))

/-- The synthetic continuation message sent when `response.done` arrives with
pending tool calls. -/
def responseCreateMsg : Json := Json.obj [("type", .str "response.create")]

/-- The method `RTMiddleTier._process_message_to_client`: the upstream-to-client
transformer. `raw` is the received frame text, `message` its parsed JSON,
`pending` the current `_tools_pending` table, `jl` stands for `json.loads`
applied to tool argument strings. -/
def processMessageToClient (cfg : RTMiddleTier) (jl : String → Except String Json)
    (pending : List (Json × RTToolCall)) (raw : String) (message : Json) :
    ProcOutcome :=
  match message with
  | .null => ⟨pending, [], [], Except.ok (some (.raw raw))⟩
  | _ =>
    match message.getField "type" with
    | .error e => ⟨pending, [], [], Except.error e⟩
    | .ok ty =>
      match ty with
      | .str "session.created" =>
        match sessionCreatedUpdate cfg message with
        | .error e => ⟨pending, [], [], Except.error e⟩
        | .ok m2 => ⟨pending, [], [], Except.ok (some (.reser m2))⟩
      | .str "response.output_item.added" =>
        if message.hasField "item" then
          match itemTypeOf message with
          | .error e => ⟨pending, [], [], Except.error e⟩
          | .ok (.str "function_call") => ⟨pending, [], [], Except.ok none⟩
          | .ok _ => ⟨pending, [], [], Except.ok (some (.raw raw))⟩
        else ⟨pending, [], [], Except.ok (some (.raw raw))⟩
      | .str "conversation.item.created" =>
        if message.hasField "item" then
          match itemTypeOf message with
          | .error e => ⟨pending, [], [], Except.error e⟩
          | .ok (.str "function_call") =>
            match itemCreatedInsert pending message with
            | .error e => ⟨pending, [], [], Except.error e⟩
            | .ok p2 => ⟨p2, [], [], Except.ok none⟩
          | .ok (.str "function_call_output") =>
            ⟨pending, [], [], Except.ok none⟩
          | .ok _ => ⟨pending, [], [], Except.ok (some (.raw raw))⟩
        else ⟨pending, [], [], Except.ok (some (.raw raw))⟩
      | .str "response.function_call_arguments.delta" =>
        ⟨pending, [], [], Except.ok none⟩
      | .str "response.function_call_arguments.done" =>
        ⟨pending, [], [], Except.ok none⟩
      | .str "response.output_item.done" =>
        if message.hasField "item" then
          match itemTypeOf message with
          | .error e => ⟨pending, [], [], Except.error e⟩
          | .ok (.str "function_call") =>
            match message.getField "item" with
            | .error e => ⟨pending, [], [], Except.error e⟩
            | .ok item =>
              match dispatchFunctionCall cfg jl pending item with
              | .error e => ⟨pending, [], [], Except.error e⟩
              | .ok sends => ⟨pending, sends.1, sends.2, Except.ok none⟩
          | .ok _ => ⟨pending, [], [], Except.ok (some (.raw raw))⟩
        else ⟨pending, [], [], Except.ok (some (.raw raw))⟩
      | .str "response.done" =>
        match pending with
        | [] => ⟨[], [], [], responseDoneForward raw message⟩
        | _ :: _ => ⟨[], [responseCreateMsg], [], responseDoneForward raw message⟩
      | _ => ⟨pending, [], [], Except.ok (some (.raw raw))⟩

/-- The pattern `if self.x is not None: session[k] = self.x` — assign a server-enforced
field only when its server-side value is set. -/
def setEnforced {α : Type} (o : Option α) (f : α → Json) (k : String)
    (s : Json) : Except String Json :=
  match o with
  | some v => s.setField k (f v)
  | none => pure s

/-- The `session.update` policy merge: each server-enforced field that is set
overwrites the embedded session object, then tool choice and the tool
schemas are always written. -/
def applySessionPolicy (cfg : RTMiddleTier) (session : Json) :
    Except String Json := do
  let s1 ← setEnforced cfg.system_message Json.str "instructions" session
  let s2 ← setEnforced cfg.temperature Json.num "temperature" s1
  let s3 ← setEnforced cfg.max_tokens (fun n => Json.num n)
    "max_response_output_tokens" s2
  let s4 ← setEnforced cfg.disable_audio Json.bool "disable_audio" s3
  let s5 ← setEnforced cfg.voice_choice Json.str "voice" s4
  let s6 ← s5.setField "tool_choice"
    (.str (if cfg.tools.isEmpty then "none" else "auto"))
  s6.setField "tools" (.arr (cfg.tools.map (fun t => t.2.schema)))

/-- The method `RTMiddleTier._process_message_to_server`: the client-to-upstream
transformer. Only `session.update` is rewritten; everything else is
forwarded raw. -/
def processMessageToServer (cfg : RTMiddleTier) (raw : String) (message : Json) :
    Except String (Option OutMsg) :=
  match message with
  | .null => Except.ok (some (.raw raw))
  | _ =>
    match message.getField "type" with
    | .error e => Except.error e
    | .ok ty =>
      match ty with
      | .str "session.update" => do
        let session ← message.getField "session"
        let s2 ← applySessionPolicy cfg session
        let m2 ← message.setField "session" s2
        pure (some (.reser m2))
      | _ => Except.ok (some (.raw raw))

/-! ### Basic lemmas about the embedding -/

theorem exbind_ok {α β : Type} (a : α) (f : α → Except String β) :
    (Except.ok a >>= f : Except String β) = f a := rfl

theorem exbind_err {α β : Type} (e : String) (f : α → Except String β) :
    ((Except.error e : Except String α) >>= f) = Except.error e := rfl

theorem expure {α : Type} (a : α) : (pure a : Except String α) = Except.ok a := rfl

theorem getField_ok_obj {m : Json} {k : String} {v : Json}
    (h : m.getField k = Except.ok v) : ∃ fs, m = Json.obj fs := by
  cases m <;> first | exact ⟨_, rfl⟩ | simp [Json.getField] at h

theorem getField_of_lookup {fs : List (String × Json)} {k : String} {v : Json}
    (h : lookupField fs k = some v) :
    (Json.obj fs).getField k = Except.ok v := by
  simp [Json.getField, h]

theorem lookup_of_getField {fs : List (String × Json)} {k : String} {v : Json}
    (h : (Json.obj fs).getField k = Except.ok v) :
    lookupField fs k = some v := by
  simp only [Json.getField] at h
  cases hl : lookupField fs k <;> rw [hl] at h <;> simp_all

theorem hasField_of_getField {m : Json} {k : String} {v : Json}
    (h : m.getField k = Except.ok v) : m.hasField k = true := by
  obtain ⟨fs, rfl⟩ := getField_ok_obj h
  simp [Json.hasField, lookup_of_getField h]

theorem lookup_setAssoc_same (fs : List (String × Json)) (k : String) (v : Json) :
    lookupField (setAssoc fs k v) k = some v := by
  induction fs with
  | nil => simp [setAssoc, lookupField]
  | cons p rest ih =>
    obtain ⟨l, w⟩ := p
    by_cases hl : l = k
    · subst hl; simp [setAssoc, lookupField]
    · simp [setAssoc, hl, lookupField, ih]

theorem lookup_setAssoc_other (fs : List (String × Json)) (k l : String)
    (v : Json) (h : l ≠ k) :
    lookupField (setAssoc fs k v) l = lookupField fs l := by
  induction fs with
  | nil => simp [setAssoc, lookupField, Ne.symm h]
  | cons p rest ih =>
    obtain ⟨a, w⟩ := p
    by_cases ha : a = k
    · subst ha
      simp [setAssoc, lookupField, Ne.symm h]
    · simp [setAssoc, ha, lookupField, ih]

/-- Pure association-list form of `setEnforced` on an object. -/
def setEnforcedA {α : Type} (o : Option α) (f : α → Json) (k : String)
    (fs : List (String × Json)) : List (String × Json) :=
  match o with
  | some v => setAssoc fs k (f v)
  | none => fs

theorem setEnforced_obj {α : Type} (o : Option α) (f : α → Json) (k : String)
    (fs : List (String × Json)) :
    setEnforced o f k (.obj fs) = Except.ok (.obj (setEnforcedA o f k fs)) := by
  cases o <;> rfl

theorem lookup_setEnforcedA_same {α : Type} {o : Option α} {v : α}
    (f : α → Json) (k : String) (fs : List (String × Json)) (h : o = some v) :
    lookupField (setEnforcedA o f k fs) k = some (f v) := by
  subst h; simp [setEnforcedA, lookup_setAssoc_same]

theorem lookup_setEnforcedA_other {α : Type} (o : Option α) (f : α → Json)
    {k l : String} (fs : List (String × Json)) (h : l ≠ k) :
    lookupField (setEnforcedA o f k fs) l = lookupField fs l := by
  cases o <;> simp [setEnforcedA, lookup_setAssoc_other _ _ _ _ h]

theorem setEnforcedA_none {α : Type} {o : Option α} (f : α → Json) (k : String)
    (fs : List (String × Json)) (h : o = none) :
    setEnforcedA o f k fs = fs := by
  subst h; rfl

/-- The field list of the session object after the `session.update` policy
merge, in the order the source performs the assignments. -/
def policyFieldsA (cfg : RTMiddleTier) (fs : List (String × Json)) :
    List (String × Json) :=
  setAssoc
    (setAssoc
      (setEnforcedA cfg.voice_choice Json.str "voice"
        (setEnforcedA cfg.disable_audio Json.bool "disable_audio"
          (setEnforcedA cfg.max_tokens (fun n => Json.num n)
            "max_response_output_tokens"
            (setEnforcedA cfg.temperature Json.num "temperature"
              (setEnforcedA cfg.system_message Json.str "instructions" fs)))))
      "tool_choice" (.str (if cfg.tools.isEmpty then "none" else "auto")))
    "tools" (.arr (cfg.tools.map (fun t => t.2.schema)))

theorem applySessionPolicy_obj (cfg : RTMiddleTier) (fs : List (String × Json)) :
    applySessionPolicy cfg (.obj fs) = Except.ok (.obj (policyFieldsA cfg fs)) := by
  simp [applySessionPolicy, policyFieldsA, setEnforced_obj, exbind_ok, expure,
    Json.setField]

/-- Reduction of the client-to-upstream transformer on a `session.update`
message with an object-shaped session. -/
theorem processToServer_sessionUpdate (cfg : RTMiddleTier) (raw : String)
    {mfs : List (String × Json)} {sfs : List (String × Json)}
    (htype : lookupField mfs "type" = some (.str "session.update"))
    (hsess : lookupField mfs "session" = some (.obj sfs)) :
    processMessageToServer cfg raw (.obj mfs) =
      Except.ok (some (.reser (.obj
        (setAssoc mfs "session" (.obj (policyFieldsA cfg sfs)))))) := by
  simp [processMessageToServer, getField_of_lookup htype, getField_of_lookup hsess,
    applySessionPolicy_obj, exbind_ok, expure, Json.setField]

/-! ### C4 and C9: the session.update policy merge -/

/-- Claim C4: for every client message of type `session.update`, each
server-enforced field (instructions, temperature, max output tokens,
audio-disable flag, voice) whose server-side value is set is overwritten in
the embedded session object with the server value; the tools field is always
replaced by the schemas of all registered tools; and tool choice is set to
"auto" when at least one tool is registered and to "none" when none is. -/
theorem c4_session_update_enforced (cfg : RTMiddleTier) (raw : String)
    (message : Json) (sfs : List (String × Json))
    (htype : message.getField "type" = Except.ok (.str "session.update"))
    (hsess : message.getField "session" = Except.ok (.obj sfs)) :
    ∃ m2 gfs, processMessageToServer cfg raw message =
        Except.ok (some (.reser m2)) ∧
      m2.getField "session" = Except.ok (.obj gfs) ∧
      (∀ v, cfg.system_message = some v →
        lookupField gfs "instructions" = some (.str v)) ∧
      (∀ q, cfg.temperature = some q →
        lookupField gfs "temperature" = some (.num q)) ∧
      (∀ n, cfg.max_tokens = some n →
        lookupField gfs "max_response_output_tokens" = some (.num n)) ∧
      (∀ b, cfg.disable_audio = some b →
        lookupField gfs "disable_audio" = some (.bool b)) ∧
      (∀ v, cfg.voice_choice = some v →
        lookupField gfs "voice" = some (.str v)) ∧
      lookupField gfs "tools" =
        some (.arr (cfg.tools.map (fun t => t.2.schema))) ∧
      lookupField gfs "tool_choice" =
        some (.str (if cfg.tools.isEmpty then "none" else "auto")) := by
  obtain ⟨mfs, rfl⟩ := getField_ok_obj htype
  refine ⟨_, policyFieldsA cfg sfs,
    processToServer_sessionUpdate cfg raw (lookup_of_getField htype)
      (lookup_of_getField hsess),
    getField_of_lookup (lookup_setAssoc_same _ _ _), ?_, ?_, ?_, ?_, ?_, ?_, ?_⟩
  · intro v hv
    unfold policyFieldsA
    rw [lookup_setAssoc_other _ _ _ _ (by decide),
      lookup_setAssoc_other _ _ _ _ (by decide),
      lookup_setEnforcedA_other _ _ _ (by decide),
      lookup_setEnforcedA_other _ _ _ (by decide),
      lookup_setEnforcedA_other _ _ _ (by decide),
      lookup_setEnforcedA_other _ _ _ (by decide),
      lookup_setEnforcedA_same _ _ _ hv]
  · intro q hq
    unfold policyFieldsA
    rw [lookup_setAssoc_other _ _ _ _ (by decide),
      lookup_setAssoc_other _ _ _ _ (by decide),
      lookup_setEnforcedA_other _ _ _ (by decide),
      lookup_setEnforcedA_other _ _ _ (by decide),
      lookup_setEnforcedA_other _ _ _ (by decide),
      lookup_setEnforcedA_same _ _ _ hq]
  · intro n hn
    unfold policyFieldsA
    rw [lookup_setAssoc_other _ _ _ _ (by decide),
      lookup_setAssoc_other _ _ _ _ (by decide),
      lookup_setEnforcedA_other _ _ _ (by decide),
      lookup_setEnforcedA_other _ _ _ (by decide),
      lookup_setEnforcedA_same _ _ _ hn]
  · intro b hb
    unfold policyFieldsA
    rw [lookup_setAssoc_other _ _ _ _ (by decide),
      lookup_setAssoc_other _ _ _ _ (by decide),
      lookup_setEnforcedA_other _ _ _ (by decide),
      lookup_setEnforcedA_same _ _ _ hb]
  · intro v hv
    unfold policyFieldsA
    rw [lookup_setAssoc_other _ _ _ _ (by decide),
      lookup_setAssoc_other _ _ _ _ (by decide),
      lookup_setEnforcedA_same _ _ _ hv]
  · exact lookup_setAssoc_same _ _ _
  · unfold policyFieldsA
    rw [lookup_setAssoc_other _ _ _ _ (by decide), lookup_setAssoc_same _ _ _]

/-- The schema of the registered "search" tool, as a JSON value. -/
def searchSchema : Json :=
  Json.obj [("type", .str "function"), ("name", .str "search")]

/-- A handler returning a successful upstream-bound result. -/
def okHandler : Json → Except String ToolResult :=
  fun _ => Except.ok ⟨some "result text", ToolResultDirection.TO_SERVER⟩

/-- Concrete relay for the C4 scenario: server temperature 0.2, one
registered tool named "search". -/
def c4Cfg : RTMiddleTier :=
  ⟨"wss://aoai.example", "gpt-realtime", some "k1", none, none, some (1/5),
    none, none, none, "2024-10-01-preview",
    [("search", ⟨okHandler, searchSchema⟩)]⟩

/-- The C4 scenario client message: a session.update whose session carries
temperature 0.9 and a client-supplied tools list. -/
def c4Msg : Json :=
  Json.obj [("type", .str "session.update"),
    ("session", Json.obj [("temperature", .num (9/10)),
      ("tools", .arr [.str "x"])])]

/-- Witness for C4 at the spec scenario. -/
theorem c4_session_update_enforced_witness :
    ∃ m2 gfs, processMessageToServer c4Cfg "RAW" c4Msg =
        Except.ok (some (.reser m2)) ∧
      m2.getField "session" = Except.ok (.obj gfs) ∧
      (∀ v, c4Cfg.system_message = some v →
        lookupField gfs "instructions" = some (.str v)) ∧
      (∀ q, c4Cfg.temperature = some q →
        lookupField gfs "temperature" = some (.num q)) ∧
      (∀ n, c4Cfg.max_tokens = some n →
        lookupField gfs "max_response_output_tokens" = some (.num n)) ∧
      (∀ b, c4Cfg.disable_audio = some b →
        lookupField gfs "disable_audio" = some (.bool b)) ∧
      (∀ v, c4Cfg.voice_choice = some v →
        lookupField gfs "voice" = some (.str v)) ∧
      lookupField gfs "tools" =
        some (.arr (c4Cfg.tools.map (fun t => t.2.schema))) ∧
      lookupField gfs "tool_choice" =
        some (.str (if c4Cfg.tools.isEmpty then "none" else "auto")) :=
  c4_session_update_enforced c4Cfg "RAW" c4Msg
    [("temperature", .num (9/10)), ("tools", .arr [.str "x"])]
    (by rfl) (by rfl)

/-- Claim C9: for every client session.update message, every field of the
embedded session object other than the server-enforced fields and the
always-overwritten tools and tool choice is preserved verbatim, and each
server-enforced field whose server value is unset keeps the client value. -/
theorem c9_session_update_frame (cfg : RTMiddleTier) (raw : String)
    (message : Json) (sfs : List (String × Json))
    (htype : message.getField "type" = Except.ok (.str "session.update"))
    (hsess : message.getField "session" = Except.ok (.obj sfs)) :
    ∃ m2 gfs, processMessageToServer cfg raw message =
        Except.ok (some (.reser m2)) ∧
      m2.getField "session" = Except.ok (.obj gfs) ∧
      (∀ k, k ≠ "instructions" → k ≠ "temperature" →
        k ≠ "max_response_output_tokens" → k ≠ "disable_audio" →
        k ≠ "voice" → k ≠ "tool_choice" → k ≠ "tools" →
        lookupField gfs k = lookupField sfs k) ∧
      (cfg.system_message = none →
        lookupField gfs "instructions" = lookupField sfs "instructions") ∧
      (cfg.temperature = none →
        lookupField gfs "temperature" = lookupField sfs "temperature") ∧
      (cfg.max_tokens = none →
        lookupField gfs "max_response_output_tokens" =
          lookupField sfs "max_response_output_tokens") ∧
      (cfg.disable_audio = none →
        lookupField gfs "disable_audio" = lookupField sfs "disable_audio") ∧
      (cfg.voice_choice = none →
        lookupField gfs "voice" = lookupField sfs "voice") := by
  obtain ⟨mfs, rfl⟩ := getField_ok_obj htype
  refine ⟨_, policyFieldsA cfg sfs,
    processToServer_sessionUpdate cfg raw (lookup_of_getField htype)
      (lookup_of_getField hsess),
    getField_of_lookup (lookup_setAssoc_same _ _ _), ?_, ?_, ?_, ?_, ?_, ?_⟩
  · intro k h1 h2 h3 h4 h5 h6 h7
    unfold policyFieldsA
    rw [lookup_setAssoc_other _ _ _ _ h7, lookup_setAssoc_other _ _ _ _ h6,
      lookup_setEnforcedA_other _ _ _ h5, lookup_setEnforcedA_other _ _ _ h4,
      lookup_setEnforcedA_other _ _ _ h3, lookup_setEnforcedA_other _ _ _ h2,
      lookup_setEnforcedA_other _ _ _ h1]
  · intro h
    unfold policyFieldsA
    rw [lookup_setAssoc_other _ _ _ _ (by decide),
      lookup_setAssoc_other _ _ _ _ (by decide),
      lookup_setEnforcedA_other _ _ _ (by decide),
      lookup_setEnforcedA_other _ _ _ (by decide),
      lookup_setEnforcedA_other _ _ _ (by decide),
      lookup_setEnforcedA_other _ _ _ (by decide),
      setEnforcedA_none _ _ _ h]
  · intro h
    unfold policyFieldsA
    rw [lookup_setAssoc_other _ _ _ _ (by decide),
      lookup_setAssoc_other _ _ _ _ (by decide),
      lookup_setEnforcedA_other _ _ _ (by decide),
      lookup_setEnforcedA_other _ _ _ (by decide),
      lookup_setEnforcedA_other _ _ _ (by decide),
      setEnforcedA_none _ _ _ h,
      lookup_setEnforcedA_other _ _ _ (by decide)]
  · intro h
    unfold policyFieldsA
    rw [lookup_setAssoc_other _ _ _ _ (by decide),
      lookup_setAssoc_other _ _ _ _ (by decide),
      lookup_setEnforcedA_other _ _ _ (by decide),
      lookup_setEnforcedA_other _ _ _ (by decide),
      setEnforcedA_none _ _ _ h,
      lookup_setEnforcedA_other _ _ _ (by decide),
      lookup_setEnforcedA_other _ _ _ (by decide)]
  · intro h
    unfold policyFieldsA
    rw [lookup_setAssoc_other _ _ _ _ (by decide),
      lookup_setAssoc_other _ _ _ _ (by decide),
      lookup_setEnforcedA_other _ _ _ (by decide),
      setEnforcedA_none _ _ _ h,
      lookup_setEnforcedA_other _ _ _ (by decide),
      lookup_setEnforcedA_other _ _ _ (by decide),
      lookup_setEnforcedA_other _ _ _ (by decide)]
  · intro h
    unfold policyFieldsA
    rw [lookup_setAssoc_other _ _ _ _ (by decide),
      lookup_setAssoc_other _ _ _ _ (by decide),
      setEnforcedA_none _ _ _ h,
      lookup_setEnforcedA_other _ _ _ (by decide),
      lookup_setEnforcedA_other _ _ _ (by decide),
      lookup_setEnforcedA_other _ _ _ (by decide),
      lookup_setEnforcedA_other _ _ _ (by decide)]

/-- Concrete relay for the C9 witness: no server-enforced value set and no
registered tools. -/
def c9Cfg : RTMiddleTier :=
  ⟨"wss://aoai.example", "gpt-realtime", some "k1", none, none, none,
    none, none, none, "2024-10-01-preview", []⟩

/-- The C9 witness client message: a session.update with a non-enforced
session field ("modalities") and a client temperature. -/
def c9Msg : Json :=
  Json.obj [("type", .str "session.update"),
    ("session", Json.obj [("modalities", .arr [.str "audio"]),
      ("temperature", .num (9/10))])]

/-- Witness for C9 at a concrete input. -/
theorem c9_session_update_frame_witness :
    ∃ m2 gfs, processMessageToServer c9Cfg "RAW" c9Msg =
        Except.ok (some (.reser m2)) ∧
      m2.getField "session" = Except.ok (.obj gfs) ∧
      (∀ k, k ≠ "instructions" → k ≠ "temperature" →
        k ≠ "max_response_output_tokens" → k ≠ "disable_audio" →
        k ≠ "voice" → k ≠ "tool_choice" → k ≠ "tools" →
        lookupField gfs k =
          lookupField [("modalities", .arr [.str "audio"]),
            ("temperature", .num (9/10))] k) ∧
      (c9Cfg.system_message = none →
        lookupField gfs "instructions" =
          lookupField [("modalities", .arr [.str "audio"]),
            ("temperature", .num (9/10))] "instructions") ∧
      (c9Cfg.temperature = none →
        lookupField gfs "temperature" =
          lookupField [("modalities", .arr [.str "audio"]),
            ("temperature", .num (9/10))] "temperature") ∧
      (c9Cfg.max_tokens = none →
        lookupField gfs "max_response_output_tokens" =
          lookupField [("modalities", .arr [.str "audio"]),
            ("temperature", .num (9/10))] "max_response_output_tokens") ∧
      (c9Cfg.disable_audio = none →
        lookupField gfs "disable_audio" =
          lookupField [("modalities", .arr [.str "audio"]),
            ("temperature", .num (9/10))] "disable_audio") ∧
      (c9Cfg.voice_choice = none →
        lookupField gfs "voice" =
          lookupField [("modalities", .arr [.str "audio"]),
            ("temperature", .num (9/10))] "voice") :=
  c9_session_update_frame c9Cfg "RAW" c9Msg
    [("modalities", .arr [.str "audio"]), ("temperature", .num (9/10))]
    (by rfl) (by rfl)

/-- A concrete `json.loads` stand-in for witnesses whose inputs never reach
argument parsing, or parse to null. -/
def jlNull : String → Except String Json := fun _ => Except.ok Json.null

/-! ### C5: session.created redaction -/

/-- The field list of the session object after the `session.created`
redaction, in the order the source performs the assignments. -/
def redactedFieldsA (cfg : RTMiddleTier) (fs : List (String × Json)) :
    List (String × Json) :=
  setAssoc (setAssoc (setAssoc (setAssoc (setAssoc fs
    "instructions" (.str ""))
    "tools" (.arr []))
    "voice" (match cfg.voice_choice with | some v => .str v | none => .null))
    "tool_choice" (.str "none"))
    "max_response_output_tokens" .null

/-- Reduction of the upstream-to-client transformer on `session.created`. -/
theorem processToClient_sessionCreated (cfg : RTMiddleTier)
    (jl : String → Except String Json) (pending : List (Json × RTToolCall))
    (raw : String) {mfs sfs : List (String × Json)}
    (htype : lookupField mfs "type" = some (.str "session.created"))
    (hsess : lookupField mfs "session" = some (.obj sfs)) :
    processMessageToClient cfg jl pending raw (.obj mfs) =
      ⟨pending, [], [], Except.ok (some (.reser (.obj (setAssoc mfs "session"
        (.obj (redactedFieldsA cfg sfs))))))⟩ := by
  simp [processMessageToClient, sessionCreatedUpdate, getField_of_lookup htype,
    getField_of_lookup hsess, Json.setField, exbind_ok, expure, redactedFieldsA]

/-- Claim C5: for every upstream message of type `session.created`, the copy
forwarded to the client has empty instructions, an empty tools list, tool
choice "none", null max response output tokens, and the server-configured
voice, regardless of the input field values. -/
theorem c5_session_created_redacted (cfg : RTMiddleTier)
    (jl : String → Except String Json) (pending : List (Json × RTToolCall))
    (raw : String) (message : Json) (sfs : List (String × Json))
    (htype : message.getField "type" = Except.ok (.str "session.created"))
    (hsess : message.getField "session" = Except.ok (.obj sfs)) :
    ∃ m2 gfs, (processMessageToClient cfg jl pending raw message).result =
        Except.ok (some (.reser m2)) ∧
      m2.getField "session" = Except.ok (.obj gfs) ∧
      lookupField gfs "instructions" = some (.str "") ∧
      lookupField gfs "tools" = some (.arr []) ∧
      lookupField gfs "tool_choice" = some (.str "none") ∧
      lookupField gfs "max_response_output_tokens" = some .null ∧
      lookupField gfs "voice" =
        some (match cfg.voice_choice with | some v => .str v | none => .null) := by
  obtain ⟨mfs, rfl⟩ := getField_ok_obj htype
  rw [processToClient_sessionCreated cfg jl pending raw
    (lookup_of_getField htype) (lookup_of_getField hsess)]
  refine ⟨_, redactedFieldsA cfg sfs, rfl,
    getField_of_lookup (lookup_setAssoc_same _ _ _), ?_, ?_, ?_, ?_, ?_⟩
  · unfold redactedFieldsA
    rw [lookup_setAssoc_other _ _ _ _ (by decide),
      lookup_setAssoc_other _ _ _ _ (by decide),
      lookup_setAssoc_other _ _ _ _ (by decide),
      lookup_setAssoc_other _ _ _ _ (by decide),
      lookup_setAssoc_same _ _ _]
  · unfold redactedFieldsA
    rw [lookup_setAssoc_other _ _ _ _ (by decide),
      lookup_setAssoc_other _ _ _ _ (by decide),
      lookup_setAssoc_other _ _ _ _ (by decide),
      lookup_setAssoc_same _ _ _]
  · unfold redactedFieldsA
    rw [lookup_setAssoc_other _ _ _ _ (by decide), lookup_setAssoc_same _ _ _]
  · unfold redactedFieldsA
    rw [lookup_setAssoc_same _ _ _]
  · unfold redactedFieldsA
    rw [lookup_setAssoc_other _ _ _ _ (by decide),
      lookup_setAssoc_other _ _ _ _ (by decide),
      lookup_setAssoc_same _ _ _]

/-- The C5 witness upstream message: a session.created carrying secret
instructions, a tool list, and a max token limit. -/
def c5Msg : Json :=
  Json.obj [("type", .str "session.created"),
    ("session", Json.obj [("instructions", .str "secret system message"),
      ("tools", .arr [searchSchema]),
      ("tool_choice", .str "auto"),
      ("max_response_output_tokens", .num 4096),
      ("voice", .str "alloy")])]

/-- Concrete relay for the C5 witness: configured voice "coral". -/
def c5Cfg : RTMiddleTier :=
  ⟨"wss://aoai.example", "gpt-realtime", some "k1", none, none, none,
    none, none, some "coral", "2024-10-01-preview", []⟩

/-- Witness for C5 at a concrete input. -/
theorem c5_session_created_redacted_witness :
    ∃ m2 gfs, (processMessageToClient c5Cfg jlNull [] "RAW" c5Msg).result =
        Except.ok (some (.reser m2)) ∧
      m2.getField "session" = Except.ok (.obj gfs) ∧
      lookupField gfs "instructions" = some (.str "") ∧
      lookupField gfs "tools" = some (.arr []) ∧
      lookupField gfs "tool_choice" = some (.str "none") ∧
      lookupField gfs "max_response_output_tokens" = some .null ∧
      lookupField gfs "voice" =
        some (match c5Cfg.voice_choice with | some v => .str v | none => .null) :=
  c5_session_created_redacted c5Cfg jlNull [] "RAW" c5Msg
    [("instructions", .str "secret system message"),
      ("tools", .arr [searchSchema]),
      ("tool_choice", .str "auto"),
      ("max_response_output_tokens", .num 4096),
      ("voice", .str "alloy")]
    (by rfl) (by rfl)

/-! ### C10: idempotent pending-call insertion -/

/-- Claim C10: inserting into the Pending-Call Tracker is idempotent per call
identifier: a `conversation.item.created` function-call message whose call
identifier is already tracked leaves the tracker unchanged (the previously
recorded preceding item identifier is kept) and is still suppressed. -/
theorem c10_pending_insert_idempotent (cfg : RTMiddleTier)
    (jl : String → Except String Json) (pending : List (Json × RTToolCall))
    (raw : String) (message item cid : Json) (tc : RTToolCall)
    (htype : message.getField "type" = Except.ok (.str "conversation.item.created"))
    (hitem : message.getField "item" = Except.ok item)
    (hity : item.getField "type" = Except.ok (.str "function_call"))
    (hcid : item.getField "call_id" = Except.ok cid)
    (hpend : pendingLookup pending cid = some tc) :
    (processMessageToClient cfg jl pending raw message).pending = pending ∧
    (processMessageToClient cfg jl pending raw message).result = Except.ok none ∧
    (processMessageToClient cfg jl pending raw message).sentToServer = [] ∧
    (processMessageToClient cfg jl pending raw message).sentToClient = [] := by
  obtain ⟨mfs, rfl⟩ := getField_ok_obj htype
  have hit : itemTypeOf (.obj mfs) = Except.ok (.str "function_call") := by
    simp [itemTypeOf, hitem, exbind_ok, hity]
  have hins : itemCreatedInsert pending (.obj mfs) = Except.ok pending := by
    simp [itemCreatedInsert, hitem, hcid, hpend, exbind_ok, expure]
  simp [processMessageToClient, htype, hasField_of_getField hitem, hit, hins]

/-- The C10 witness message: a function-call item creation whose call
identifier is already tracked with preceding item "item-0". -/
def c10Msg : Json :=
  Json.obj [("type", .str "conversation.item.created"),
    ("previous_item_id", .str "item-9"),
    ("item", Json.obj [("type", .str "function_call"),
      ("call_id", .str "call-1")])]

/-- The C10 witness tracker: call-1 already pending after item-0. -/
def c10Pending : List (Json × RTToolCall) :=
  [(.str "call-1", ⟨.str "call-1", .str "item-0"⟩)]

/-- Concrete relay for the client-side witnesses with one registered tool. -/
def clientCfg : RTMiddleTier :=
  ⟨"wss://aoai.example", "gpt-realtime", some "k1", none, none, none,
    none, none, none, "2024-10-01-preview",
    [("search", ⟨okHandler, searchSchema⟩)]⟩

/-- Witness for C10 at a concrete input. -/
theorem c10_pending_insert_idempotent_witness :
    (processMessageToClient clientCfg jlNull c10Pending "RAW" c10Msg).pending
        = c10Pending ∧
    (processMessageToClient clientCfg jlNull c10Pending "RAW" c10Msg).result
        = Except.ok none ∧
    (processMessageToClient clientCfg jlNull c10Pending "RAW" c10Msg).sentToServer
        = [] ∧
    (processMessageToClient clientCfg jlNull c10Pending "RAW" c10Msg).sentToClient
        = [] :=
  c10_pending_insert_idempotent clientCfg jlNull c10Pending "RAW" c10Msg
    (Json.obj [("type", .str "function_call"), ("call_id", .str "call-1")])
    (.str "call-1") ⟨.str "call-1", .str "item-0"⟩
    (by rfl) (by rfl) (by rfl) (by rfl) (by rfl)

/-! ### C1: function-call dispatch -/

/-- Reduction of the dispatch step under the presuppositions of C1: the call
identifier is tracked, the tool is registered, the arguments parse, and the
handler returns a result. -/
theorem dispatchFunctionCall_ok (cfg : RTMiddleTier)
    (jl : String → Except String Json) (pending : List (Json × RTToolCall))
    (item cid : Json) (tc : RTToolCall) (toolName : String) (tool : Tool)
    (argStr : String) (parsedArgs : Json) (result : ToolResult)
    (hcid : item.getField "call_id" = Except.ok cid)
    (hpend : pendingLookup pending cid = some tc)
    (hname : item.getField "name" = Except.ok (.str toolName))
    (htool : cfg.tools.lookup toolName = some tool)
    (hargs : item.getField "arguments" = Except.ok (.str argStr))
    (hjl : jl argStr = Except.ok parsedArgs)
    (htarget : tool.target parsedArgs = Except.ok result) :
    dispatchFunctionCall cfg jl pending item = Except.ok
      ([Json.obj [("type", .str "conversation.item.create"),
        ("item", Json.obj [("type", .str "function_call_output"),
          ("call_id", cid),
          ("output", .str (if result.destination = ToolResultDirection.TO_SERVER
            then result.toText else ""))])]],
       if result.destination = ToolResultDirection.TO_CLIENT then
        [Json.obj [("type", .str "extension.middle_tier_tool_response"),
          ("previous_item_id", tc.previous_id),
          ("tool_name", .str toolName),
          ("tool_result", .str result.toText)]]
       else []) := by
  simp [dispatchFunctionCall, hcid, pendingGet, hpend, hname, toolsGet, htool,
    hargs, Json.asStr, hjl, htarget, exbind_ok, expure]

/-- Claim C1: for every upstream `response.output_item.done` message whose
item is a function call, given the call identifier is tracked, the tool is
registered, the arguments parse, and the handler returns a result, exactly
one `conversation.item.create` carrying a `function_call_output` with the
same call identifier is sent upstream, with output text equal to the result
text when the destination is TO_SERVER and empty otherwise; the original
message is suppressed; and exactly when the destination is TO_CLIENT one
`extension.middle_tier_tool_response` carrying the recorded preceding item
identifier, the tool name, and the result text is sent to the client. -/
theorem c1_function_call_dispatch (cfg : RTMiddleTier)
    (jl : String → Except String Json) (pending : List (Json × RTToolCall))
    (raw : String) (message item cid : Json) (tc : RTToolCall)
    (toolName : String) (tool : Tool) (argStr : String) (parsedArgs : Json)
    (result : ToolResult)
    (htype : message.getField "type" = Except.ok (.str "response.output_item.done"))
    (hitem : message.getField "item" = Except.ok item)
    (hity : item.getField "type" = Except.ok (.str "function_call"))
    (hcid : item.getField "call_id" = Except.ok cid)
    (hpend : pendingLookup pending cid = some tc)
    (hname : item.getField "name" = Except.ok (.str toolName))
    (htool : cfg.tools.lookup toolName = some tool)
    (hargs : item.getField "arguments" = Except.ok (.str argStr))
    (hjl : jl argStr = Except.ok parsedArgs)
    (htarget : tool.target parsedArgs = Except.ok result) :
    (processMessageToClient cfg jl pending raw message).sentToServer =
      [Json.obj [("type", .str "conversation.item.create"),
        ("item", Json.obj [("type", .str "function_call_output"),
          ("call_id", cid),
          ("output", .str (if result.destination = ToolResultDirection.TO_SERVER
            then result.toText else ""))])]] ∧
    (processMessageToClient cfg jl pending raw message).result =
      Except.ok none ∧
    (processMessageToClient cfg jl pending raw message).sentToClient =
      (if result.destination = ToolResultDirection.TO_CLIENT then
        [Json.obj [("type", .str "extension.middle_tier_tool_response"),
          ("previous_item_id", tc.previous_id),
          ("tool_name", .str toolName),
          ("tool_result", .str result.toText)]]
       else []) := by
  obtain ⟨mfs, rfl⟩ := getField_ok_obj htype
  have hit : itemTypeOf (.obj mfs) = Except.ok (.str "function_call") := by
    simp [itemTypeOf, hitem, exbind_ok, hity]
  have hd := dispatchFunctionCall_ok cfg jl pending item cid tc toolName tool
    argStr parsedArgs result hcid hpend hname htool hargs hjl htarget
  simp [processMessageToClient, htype, hasField_of_getField hitem, hit, hitem, hd]

/-- A handler returning a client-bound grounding result. -/
def groundingHandler : Json → Except String ToolResult :=
  fun _ => Except.ok ⟨some "cited sources", ToolResultDirection.TO_CLIENT⟩

/-- Concrete relay for the C1 witness: one client-bound tool. -/
def c1Cfg : RTMiddleTier :=
  ⟨"wss://aoai.example", "gpt-realtime", some "k1", none, none, none,
    none, none, none, "2024-10-01-preview",
    [("report_grounding", ⟨groundingHandler, searchSchema⟩)]⟩

/-- The C1 witness item: a completed function call for the tracked call-1. -/
def c1Item : Json :=
  Json.obj [("type", .str "function_call"), ("call_id", .str "call-1"),
    ("name", .str "report_grounding"), ("arguments", .str "null")]

/-- The C1 witness message: the output-item-done announcing the call. -/
def c1Msg : Json :=
  Json.obj [("type", .str "response.output_item.done"), ("item", c1Item)]

/-- Witness for C1 at a concrete TO_CLIENT dispatch. -/
theorem c1_function_call_dispatch_witness :
    (processMessageToClient c1Cfg jlNull c10Pending "RAW" c1Msg).sentToServer =
      [Json.obj [("type", .str "conversation.item.create"),
        ("item", Json.obj [("type", .str "function_call_output"),
          ("call_id", .str "call-1"),
          ("output", .str (if (ToolResult.mk (some "cited sources")
              ToolResultDirection.TO_CLIENT).destination =
                ToolResultDirection.TO_SERVER
            then (ToolResult.mk (some "cited sources")
              ToolResultDirection.TO_CLIENT).toText else ""))])]] ∧
    (processMessageToClient c1Cfg jlNull c10Pending "RAW" c1Msg).result =
      Except.ok none ∧
    (processMessageToClient c1Cfg jlNull c10Pending "RAW" c1Msg).sentToClient =
      (if (ToolResult.mk (some "cited sources")
          ToolResultDirection.TO_CLIENT).destination =
            ToolResultDirection.TO_CLIENT then
        [Json.obj [("type", .str "extension.middle_tier_tool_response"),
          ("previous_item_id", .str "item-0"),
          ("tool_name", .str "report_grounding"),
          ("tool_result", .str (ToolResult.mk (some "cited sources")
            ToolResultDirection.TO_CLIENT).toText)]]
       else []) :=
  c1_function_call_dispatch c1Cfg jlNull c10Pending "RAW" c1Msg c1Item
    (.str "call-1") ⟨.str "call-1", .str "item-0"⟩ "report_grounding"
    ⟨groundingHandler, searchSchema⟩ "null" Json.null
    ⟨some "cited sources", ToolResultDirection.TO_CLIENT⟩
    (by rfl) (by rfl) (by rfl) (by rfl) (by rfl) (by rfl) (by rfl) (by rfl)
    (by rfl) (by rfl)

/-! ### C6: response.done clears the tracker -/

/-- Claim C6: on every upstream `response.done`, the tracker is empty
afterwards; exactly one `response.create` continuation was sent upstream
when the tracker was non-empty on arrival, and nothing was sent when it was
already empty. -/
theorem c6_response_done_tracker (cfg : RTMiddleTier)
    (jl : String → Except String Json) (pending : List (Json × RTToolCall))
    (raw : String) (message : Json)
    (htype : message.getField "type" = Except.ok (.str "response.done")) :
    (processMessageToClient cfg jl pending raw message).pending = [] ∧
    (pending ≠ [] →
      (processMessageToClient cfg jl pending raw message).sentToServer =
        [responseCreateMsg]) ∧
    (pending = [] →
      (processMessageToClient cfg jl pending raw message).sentToServer = []) := by
  obtain ⟨mfs, rfl⟩ := getField_ok_obj htype
  cases pending with
  | nil => simp [processMessageToClient, htype]
  | cons hd tl => simp [processMessageToClient, htype]

/-- The C6 witness message: a bare response.done. -/
def c6Msg : Json := Json.obj [("type", .str "response.done")]

/-- Witness for C6 with a non-empty tracker. -/
theorem c6_response_done_tracker_witness :
    (processMessageToClient clientCfg jlNull c10Pending "RAW" c6Msg).pending
        = [] ∧
    (c10Pending ≠ [] →
      (processMessageToClient clientCfg jlNull c10Pending "RAW" c6Msg).sentToServer
        = [responseCreateMsg]) ∧
    (c10Pending = [] →
      (processMessageToClient clientCfg jlNull c10Pending "RAW" c6Msg).sentToServer
        = []) :=
  c6_response_done_tracker clientCfg jlNull c10Pending "RAW" c6Msg (by rfl)

/-! ### C7: response.done with no function calls is forwarded raw -/

/-- The pruning loop leaves the list untouched, sets no flag, and raises
nothing when no entry has type "function_call". -/
theorem pruneGo_no_fc (outs : List Json)
    (hno : ∀ j ∈ outs, ∃ t, j.getField "type" = Except.ok t ∧
      Json.beq t (.str "function_call") = false) :
    ∀ itIdx enumI rep, pruneGo itIdx enumI outs rep = Except.ok (outs, rep) := by
  intro itIdx
  induction itIdx with
  | zero =>
    intro enumI rep
    rw [pruneGo]
    by_cases h : 0 < outs.length
    · obtain ⟨t, ht, hne⟩ := hno (outs.get ⟨0, h⟩) (outs.get_mem _ h)
      simp only [List.get_eq_getElem] at ht
      simp [h, ht, hne]
    · simp [h]
  | succ n ih =>
    intro enumI rep
    rw [pruneGo]
    by_cases h : n + 1 < outs.length
    · obtain ⟨t, ht, hne⟩ := hno (outs.get ⟨n + 1, h⟩) (outs.get_mem _ h)
      simp only [List.get_eq_getElem] at ht
      simp [h, ht, hne, ih]
    · simp [h]

/-- Claim C7: for every upstream `response.done` whose response output list
contains no function_call entry, the message forwarded to the client is the
raw received frame, byte for byte (no re-serialization). -/
theorem c7_response_done_roundtrip (cfg : RTMiddleTier)
    (jl : String → Except String Json) (pending : List (Json × RTToolCall))
    (raw : String) (message respJ : Json) (outs : List Json)
    (htype : message.getField "type" = Except.ok (.str "response.done"))
    (hresp : message.getField "response" = Except.ok respJ)
    (hout : respJ.getField "output" = Except.ok (.arr outs))
    (hno : ∀ j ∈ outs, ∃ t, j.getField "type" = Except.ok t ∧
      Json.beq t (.str "function_call") = false) :
    (processMessageToClient cfg jl pending raw message).result =
      Except.ok (some (OutMsg.raw raw)) := by
  obtain ⟨mfs, rfl⟩ := getField_ok_obj htype
  have hfwd : responseDoneForward raw (.obj mfs) =
      Except.ok (some (.raw raw)) := by
    simp [responseDoneForward, hasField_of_getField hresp, hresp, hout,
      Json.asArr, exbind_ok, expure, pruneOutputs, pruneGo_no_fc outs hno]
  cases pending with
  | nil => simp [processMessageToClient, htype, hfwd]
  | cons hd tl => simp [processMessageToClient, htype, hfwd]

/-- The C7 witness message: a response.done whose output holds one text
item. -/
def c7Msg : Json :=
  Json.obj [("type", .str "response.done"),
    ("response", Json.obj [("status", .str "completed"),
      ("output", .arr [Json.obj [("type", .str "message"),
        ("id", .str "msg-1")]])])]

/-- Witness for C7 at a concrete input. -/
theorem c7_response_done_roundtrip_witness :
    (processMessageToClient clientCfg jlNull [] "RAW-BYTES" c7Msg).result =
      Except.ok (some (OutMsg.raw "RAW-BYTES")) :=
  c7_response_done_roundtrip clientCfg jlNull [] "RAW-BYTES" c7Msg
    (Json.obj [("status", .str "completed"),
      ("output", .arr [Json.obj [("type", .str "message"),
        ("id", .str "msg-1")]])])
    [Json.obj [("type", .str "message"), ("id", .str "msg-1")]]
    (by rfl) (by rfl) (by rfl)
    (by
      intro j hj
      simp only [List.mem_singleton] at hj
      exact ⟨.str "message", by subst hj; rfl, by rfl⟩)

/-! ### C8: function-call machinery never reaches the client -/

/-- The message shapes C8 asserts are never forwarded: output-item-added with
a function-call item, item-created with a function-call or
function-call-output item, function-call argument delta and done frames, and
output-item-done with a function-call item. -/
def SuppressedShape (message : Json) : Prop :=
  (message.getField "type" = Except.ok (.str "response.output_item.added") ∧
    itemTypeOf message = Except.ok (.str "function_call")) ∨
  (message.getField "type" = Except.ok (.str "conversation.item.created") ∧
    itemTypeOf message = Except.ok (.str "function_call")) ∨
  (message.getField "type" = Except.ok (.str "conversation.item.created") ∧
    itemTypeOf message = Except.ok (.str "function_call_output")) ∨
  message.getField "type" =
    Except.ok (.str "response.function_call_arguments.delta") ∨
  message.getField "type" =
    Except.ok (.str "response.function_call_arguments.done") ∨
  (message.getField "type" = Except.ok (.str "response.output_item.done") ∧
    itemTypeOf message = Except.ok (.str "function_call"))

/-- A successful `itemTypeOf` decomposes into its two field accesses. -/
theorem itemTypeOf_ok {m v : Json} (h : itemTypeOf m = Except.ok v) :
    ∃ item, m.getField "item" = Except.ok item ∧
      item.getField "type" = Except.ok v := by
  unfold itemTypeOf at h
  cases hi : m.getField "item" with
  | error e => rw [hi, exbind_err] at h; exact absurd h (by simp)
  | ok item => rw [hi, exbind_ok] at h; exact ⟨item, rfl, h⟩

/-- Claim C8: the inbound transformer returns no client-bound message for any
input of a suppressed shape — the client never receives such a message. -/
theorem c8_machinery_suppressed (cfg : RTMiddleTier)
    (jl : String → Except String Json) (pending : List (Json × RTToolCall))
    (raw : String) (message : Json) (h : SuppressedShape message) :
    ¬ ∃ m, (processMessageToClient cfg jl pending raw message).result =
      Except.ok (some m) := by
  rintro ⟨m, hm⟩
  rcases h with ⟨ht, hi⟩ | ⟨ht, hi⟩ | ⟨ht, hi⟩ | ht | ht | ⟨ht, hi⟩ <;>
    obtain ⟨mfs, rfl⟩ := getField_ok_obj ht
  · obtain ⟨item, hitem, hity⟩ := itemTypeOf_ok hi
    simp [processMessageToClient, ht, hasField_of_getField hitem, hi] at hm
  · obtain ⟨item, hitem, hity⟩ := itemTypeOf_ok hi
    cases hins : itemCreatedInsert pending (.obj mfs) <;>
      simp [processMessageToClient, ht, hasField_of_getField hitem, hi, hins] at hm
  · obtain ⟨item, hitem, hity⟩ := itemTypeOf_ok hi
    simp [processMessageToClient, ht, hasField_of_getField hitem, hi] at hm
  · simp [processMessageToClient, ht] at hm
  · simp [processMessageToClient, ht] at hm
  · obtain ⟨item, hitem, hity⟩ := itemTypeOf_ok hi
    cases hd : dispatchFunctionCall cfg jl pending item <;>
      simp [processMessageToClient, ht, hasField_of_getField hitem, hi, hitem,
        hd] at hm

/-- The C8 witness message: a raw argument-streaming delta frame. -/
def c8Msg : Json :=
  Json.obj [("type", .str "response.function_call_arguments.delta"),
    ("delta", .str "partial args")]

/-- Witness for C8 at a concrete input. -/
theorem c8_machinery_suppressed_witness :
    ¬ ∃ m, (processMessageToClient clientCfg jlNull [] "RAW" c8Msg).result =
      Except.ok (some m) :=
  c8_machinery_suppressed clientCfg jlNull [] "RAW" c8Msg
    (Or.inr (Or.inr (Or.inr (Or.inl (by rfl)))))

/-! ### C2: a raising tool handler propagates out of the transformer -/

/-- A handler modelling a tool coroutine that raises. -/
def raisingHandler : Json → Except String ToolResult :=
  fun _ => Except.error "RuntimeError"

/-- Concrete relay for C2: the registered tool "boom" raises when invoked. -/
def c2Cfg : RTMiddleTier :=
  ⟨"wss://aoai.example", "gpt-realtime", some "k1", none, none, none,
    none, none, none, "2024-10-01-preview",
    [("boom", ⟨raisingHandler, searchSchema⟩)]⟩

/-- The C2 failing input: a completed function call whose tracked call
dispatches to the raising tool. -/
def c2Msg : Json :=
  Json.obj [("type", .str "response.output_item.done"),
    ("item", Json.obj [("type", .str "function_call"),
      ("call_id", .str "call-1"), ("name", .str "boom"),
      ("arguments", .str "null")])]

/-- Claim C2 evaluated at the failing input: the handler exception is NOT
caught at the dispatch boundary — it propagates out of the transformer
(terminating the session, since the pump catches only connection resets) and
no error-shaped function-call output is sent upstream. -/
theorem c2_handler_fault_propagates :
    (processMessageToClient c2Cfg jlNull c10Pending "RAW" c2Msg).result =
      Except.error "RuntimeError" ∧
    (processMessageToClient c2Cfg jlNull c10Pending "RAW" c2Msg).sentToServer
      = [] ∧
    (processMessageToClient c2Cfg jlNull c10Pending "RAW" c2Msg).sentToClient
      = [] :=
  ⟨rfl, rfl, rfl⟩

/-! ### C3: the function-call pruning loop removes the wrong entries -/

/-- A function-call output entry of a completed response. -/
def fcOutput : Json :=
  Json.obj [("type", .str "function_call"), ("id", .str "fc-1")]

/-- A non-function-call (text message) output entry. -/
def txtOutput : Json :=
  Json.obj [("type", .str "message"), ("id", .str "msg-1")]

/-- The C3 failing input: a response.done whose output list is
[function_call, message]. -/
def c3Msg : Json :=
  Json.obj [("type", .str "response.done"),
    ("response", Json.obj [("output", .arr [fcOutput, txtOutput])])]

/-- A second failing input with the output list reversed:
[message, function_call]. -/
def c3MsgB : Json :=
  Json.obj [("type", .str "response.done"),
    ("response", Json.obj [("output", .arr [txtOutput, fcOutput])])]

/-- Claim C3 evaluated at the failing inputs: on [function_call, message] the
loop pops the wrong index, so the forwarded copy KEEPS the function_call
entry and loses the message entry; on [message, function_call] the loop
raises IndexError, so nothing is forwarded at all. -/
theorem c3_prune_loop_faulty :
    (processMessageToClient clientCfg jlNull [] "RAW" c3Msg).result =
      Except.ok (some (OutMsg.reser (Json.obj [("type", .str "response.done"),
        ("response", Json.obj [("output", .arr [fcOutput])])]))) ∧
    (processMessageToClient clientCfg jlNull [] "RAW" c3MsgB).result =
      Except.error "IndexError" :=
  ⟨rfl, rfl⟩
